import Mathlib

/-!
# GraphQL client: request executor and subscription session

A shallow embedding of `graphql.go` and `websocket.go`.

Go values of interface type `error` become `GoError`; a `nil` error is
`none`.  Code that lives outside the two files (the document renderer, the
JSON codec, the GraphQL decoder, the HTTP transport, the URL library, the
socket library, the UUID library) is taken as a record of functions, so that
every statement below holds for every behaviour of those collaborators.
-/

namespace graphql

/-! ## Errors -/

/-- One `Locations` element of an entry of the `errors` slice. -/
structure Location where
  Line : Int
  Column : Int
deriving DecidableEq, Repr

/-- The anonymous struct that is the element type of the `errors` slice. -/
structure ErrorEntry where
  Message : String
  Locations : List Location
deriving DecidableEq, Repr

/-- The Go type `errors`: the "errors" array of a response. -/
abbrev errors := List ErrorEntry

/-- The method `func (e errors) Error() string`, which returns `e[0].Message`.
`none` stands for the index-out-of-range failure of `e[0]` on an empty slice. -/
def errors.Error (e : errors) : Option String :=
  match e with
  | [] => none
  | e0 :: _ => some e0.Message

/-- A value of the Go interface type `error`, by origin. -/
inductive GoError where
  /-- An error value handed back by a collaborator (encoder, transport, decoder, socket). -/
  | ext (msg : String)
  /-- An error built in this package with `fmt.Errorf`. -/
  | errorf (msg : String)
  /-- The slice `out.Errors` returned through the `error` interface. -/
  | errs (e : errors)
deriving DecidableEq, Repr

/-- The `Error()` method of an `error` value; `none` when the call fails. -/
def GoError.Error : GoError → Option String
  | .ext msg => some msg
  | .errorf msg => some msg
  | .errs e => errors.Error e

/-! ## Request executor (`Client.do`) -/

/-- The type `operationType` with its three constants. -/
inductive operationType where
  | queryOperation
  | mutationOperation
  | subscriptionOperation
deriving DecidableEq, Repr

/-- The fields of `*http.Response` that `do` reads.  `Body` is the byte
content that reading `resp.Body` delivers. -/
structure Response where
  StatusCode : Int
  Status : String
  Body : String
deriving DecidableEq, Repr

/-- The local `out` of `do`: `Data *json.RawMessage` (`none` is the nil
pointer, which the JSON decoder leaves for an absent member and for JSON
`null`) and `Errors errors`. -/
structure Envelope where
  Data : Option String
  Errors : errors
deriving DecidableEq, Repr

/-- The constant `http.StatusOK`. -/
def StatusOK : Int := 200

/-- A call that `do` makes to a collaborator, recorded in program order. -/
inductive Call where
  | encode
  | post
  | readAll
  | decodeEnvelope
  | unmarshal (data : String)
deriving DecidableEq, Repr

/-! ## Socket, URL and frame types (`websocket.go`) -/

/-- The type `http.Header`. -/
abbrev Header := List (String × List String)

/-- The exported fields of `url.URL`. -/
structure URL where
  Scheme : String
  Opaque : String
  User : Option (String × Option String)
  Host : String
  Path : String
  RawPath : String
  ForceQuery : Bool
  RawQuery : String
  Fragment : String
deriving DecidableEq, Repr

/-- The outcome of one read on the socket. -/
inductive ReadResult where
  | message (body : String)
  | failure (err : GoError)
deriving DecidableEq, Repr

/-- State of a `*websocket.Conn` as this package sees it.  `reads` is what
the successive reads deliver, in order; once it is used up the peer is gone
and a read fails.  `writeErrs` is what the successive writes report, in order;
once it is used up writes succeed.  `written` is what has been sent. -/
structure Conn where
  reads : List ReadResult
  writeErrs : List (Option GoError)
  written : List String
  closed : Bool
deriving DecidableEq, Repr

/-- The type `SubscriptionAction`, a named string type. -/
abbrev SubscriptionAction := String

/-- The constant `START`. -/
def START : SubscriptionAction := "start"
/-- The constant `STOP`. -/
def STOP : SubscriptionAction := "stop"
/-- The constant `DATA`. -/
def DATA : SubscriptionAction := "data"
/-- The constant `ERROR`. -/
def ERROR : SubscriptionAction := "error"
/-- The constant `COMPLETE`. -/
def COMPLETE : SubscriptionAction := "complete"

/-- The struct `GraphQLPayload`; `Variables` has the caller's map type. -/
structure GraphQLPayload (V : Type) where
  Variables : V
  Extensions : Option (List (String × String))
  OperationName : Option String
  Query : String

/-- The struct `Subscription`. -/
structure Subscription (V : Type) where
  ID : String
  Type_ : SubscriptionAction
  Payload : GraphQLPayload V

/-- The struct `SubscriptionMessage`; `PayloadData` is `Payload.Data`. -/
structure SubscriptionMessage where
  ID : String
  Type_ : SubscriptionAction
  PayloadData : String
  Errors : String
deriving DecidableEq, Repr

/-- The collaborators of `do`, for a template type `T` and a variable-map
type `V`.  `UnmarshalGraphQL` writes into its target in place, so it returns
the error together with the target as it is after the call. -/
structure Services (T V : Type) where
  constructQuery : T → V → String
  constructMutation : T → V → String
  constructSubscription : T → V → String
  /-- The call `json.NewEncoder(&buf).Encode(in)` for `in`, built from the query text and the variable map. -/
  jsonEncode : String → V → Except GoError String
  /-- The call `ctxhttp.Post(ctx, c.httpClient, c.url, "application/json", &buf)`. -/
  post : String → String → Except GoError Response
  /-- The formatting verb `%q` applied to the bytes of the body. -/
  quote : String → String
  /-- The call `json.NewDecoder(resp.Body).Decode(&out)`. -/
  decodeEnvelope : String → Except GoError Envelope
  /-- The call `jsonutil.UnmarshalGraphQL(data, v)`. -/
  UnmarshalGraphQL : String → T → Option GoError × T
  /-- The call `url.Parse(u)`. -/
  Parse : String → Except GoError URL
  /-- The method `(*url.URL).String`. -/
  URLString : URL → String
  /-- The call `d.DialContext(ctx, url, header)` with `d.Subprotocols` as second argument. -/
  DialContext : String → List String → Header → Except GoError Conn
  /-- The text of `uuid.NewV4().String()`. -/
  NewV4 : String
  /-- The call `uuid.FromString(s)`, giving the identifier in canonical text. -/
  FromString : String → Except GoError String
  /-- The JSON text that `conn.WriteJSON(sub)` puts on the wire. -/
  marshalSubscription : Subscription V → Except GoError String
  /-- The JSON decoding that `conn.ReadJSON(&msg)` applies to a message. -/
  unmarshalMessage : String → Except GoError SubscriptionMessage
  /-- The value behind `reflect.New(val.Type())`: a new zero value of the template type. -/
  zero : T

/-- The struct `Client`, without the transport handle (the transport is
`Services.post`). -/
structure Client where
  url : String
  header : Header
deriving DecidableEq, Repr

/-- What a call of `do` leaves behind: the returned error, the template `v`
as it is after the call, and the collaborator calls made. -/
structure DoResult (T : Type) where
  err : Option GoError
  v : T
  calls : List Call

/-- The text built by
`fmt.Errorf("non-200 OK status code: %v body: %q", resp.Status, body)`. -/
def statusErrorText (quote : String → String) (resp : Response) : String :=
  "non-200 OK status code: " ++ resp.Status ++ " body: " ++ quote resp.Body

/-- The `switch op` at the head of `do`, which picks the document text. -/
def operationDocument {T V : Type} (sv : Services T V) (op : operationType)
    (v : T) (vars : V) : String :=
  match op with
  | .queryOperation => sv.constructQuery v vars
  | .mutationOperation => sv.constructMutation v vars
  | .subscriptionOperation => sv.constructSubscription v vars

/-- The method `func (c *Client) do(ctx, op, v, variables) error`.  The name
carries an underscore because `do` is reserved. -/
def Client.do_ {T V : Type} (c : Client) (sv : Services T V) (op : operationType)
    (v : T) (vars : V) : DoResult T :=
  let query : String := operationDocument sv op v vars
  match sv.jsonEncode query vars with
  | .error err => ⟨some err, v, [.encode]⟩
  | .ok buf =>
    match sv.post c.url buf with
    | .error err => ⟨some err, v, [.encode, .post]⟩
    | .ok resp =>
      if resp.StatusCode ≠ StatusOK then
        ⟨some (.errorf (statusErrorText sv.quote resp)), v, [.encode, .post, .readAll]⟩
      else
        match sv.decodeEnvelope resp.Body with
        | .error err => ⟨some err, v, [.encode, .post, .decodeEnvelope]⟩
        | .ok out =>
          match out.Data with
          | some data =>
            match sv.UnmarshalGraphQL data v with
            | (some err, v1) =>
              ⟨some err, v1, [.encode, .post, .decodeEnvelope, .unmarshal data]⟩
            | (none, v1) =>
              if out.Errors.length > 0 then
                ⟨some (.errs out.Errors), v1, [.encode, .post, .decodeEnvelope, .unmarshal data]⟩
              else
                ⟨none, v1, [.encode, .post, .decodeEnvelope, .unmarshal data]⟩
          | none =>
            if out.Errors.length > 0 then
              ⟨some (.errs out.Errors), v, [.encode, .post, .decodeEnvelope]⟩
            else
              ⟨none, v, [.encode, .post, .decodeEnvelope]⟩

/-- The method `Client.Query`. -/
def Client.Query {T V : Type} (c : Client) (sv : Services T V) (q : T) (vars : V) :
    DoResult T :=
  c.do_ sv .queryOperation q vars

/-- The method `Client.Mutate`. -/
def Client.Mutate {T V : Type} (c : Client) (sv : Services T V) (m : T) (vars : V) :
    DoResult T :=
  c.do_ sv .mutationOperation m vars

/-- Whether a recorded call is a call of the GraphQL decoder. -/
def Call.isUnmarshal : Call → Bool
  | .unmarshal _ => true
  | _ => false

/-! ## Connection set-up (`newWebsocketConnection`) -/

/-- The error of a read on a socket whose peer is gone. -/
def peerGone : GoError := .ext "websocket: close 1006 (abnormal closure): unexpected EOF"

/-- The method `conn.WriteMessage(websocket.TextMessage, data)`. -/
def Conn.WriteMessage (conn : Conn) (data : String) : Option GoError × Conn :=
  match conn.writeErrs with
  | [] => (none, { conn with written := conn.written ++ [data] })
  | none :: rest => (none, { conn with writeErrs := rest, written := conn.written ++ [data] })
  | some err :: rest => (some err, { conn with writeErrs := rest })

/-- The method `conn.ReadMessage()`, without the message type it also returns. -/
def Conn.ReadMessage (conn : Conn) : ReadResult × Conn :=
  match conn.reads with
  | [] => (.failure peerGone, conn)
  | r :: rest => (r, { conn with reads := rest })

/-- The bytes sent first: the `connection_init` frame. -/
def initText : String := "\x7b\"type\":\"connection_init\",\"payload\":\x7b\x7d\x7d"

/-- The bytes the first reply is compared with. -/
def ackText : String := "\x7b\"type\":\"connection_ack\"\x7d" ++ "\n"

/-- The bytes the second reply is compared with. -/
def kaText : String := "\x7b\"type\":\"ka\"\x7d" ++ "\n"

/-- Lines 31 to 51 of `newWebsocketConnection`: what is done with the dialled
connection. -/
def handshake (conn : Conn) : Except GoError Conn :=
  match conn.WriteMessage initText with
  | (some err, _) => .error err
  | (none, conn1) =>
    match conn1.ReadMessage with
    | (.failure err, _) => .error err
    | (.message body, conn2) =>
      if body ≠ ackText then
        .error (.errorf ("Did not receive ack, got: " ++ body ++ "'"))
      else
        match conn2.ReadMessage with
        | (.failure err, _) => .error err
        | (.message body2, conn3) =>
          if body2 ≠ kaText then
            .error (.errorf ("Did not receive ka, got: " ++ body2 ++ "'"))
          else
            .ok conn3

/-- Lines 18 to 22 of `newWebsocketConnection`: the scheme of the URL to dial. -/
def upgradeScheme (wsURL : URL) : URL :=
  if wsURL.Scheme = "https" ∨ wsURL.Scheme = "wss" then
    { wsURL with Scheme := "wss" }
  else
    { wsURL with Scheme := "ws" }

/-- The function `newWebsocketConnection(ctx, u, header)`. -/
def newWebsocketConnection {T V : Type} (sv : Services T V) (u : String) (header : Header) :
    Except GoError Conn :=
  match sv.Parse u with
  | .error err => .error err
  | .ok wsURL =>
    match sv.DialContext (sv.URLString (upgradeScheme wsURL)) ["graphql-ws"] header with
    | .error err => .error err
    | .ok conn => handshake conn

/-! ## Subscription session (`Subscribe`, `subJSON`) -/

/-- The output stream `newChan`: the values sent so far, in order, and
whether `close` was called.  The reader is taken to drain the stream, so a
send on an open stream goes through. -/
structure Chan (T : Type) where
  sent : List T
  closed : Bool

/-- A send `ch <- x`; the error is the runtime failure of a send on a closed
channel. -/
def Chan.send {T : Type} (ch : Chan T) (x : T) : Except String (Chan T) :=
  if ch.closed then .error "send on closed channel"
  else .ok { ch with sent := ch.sent ++ [x] }

/-- The call `close(ch)`; the error is the runtime failure of closing a channel
twice. -/
def Chan.close {T : Type} (ch : Chan T) : Except String (Chan T) :=
  if ch.closed then .error "close of closed channel"
  else .ok { ch with closed := true }

/-- The two cancel functions made on the way through `Subscribe`, named by the
context each one cancels. -/
inductive CancelFunc where
  /-- From `context.WithCancel(ctx)` in `Subscribe`; its context went to the dialler. -/
  | dialContext
  /-- From `context.WithCancel(context.Background())` in `subJSON`. -/
  | subContext
deriving DecidableEq, Repr

/-- The method `conn.WriteJSON(sub)`. -/
def Conn.WriteJSON {T V : Type} (sv : Services T V) (conn : Conn) (sub : Subscription V) :
    Option GoError × Conn :=
  match sv.marshalSubscription sub with
  | .error err => (some err, conn)
  | .ok text => conn.WriteMessage text

/-- What `subJSON` returns and leaves behind: the connection after the write
and the local `sub` that the waiting goroutine holds. -/
structure SubJSONResult (V : Type) where
  cancel : Option CancelFunc
  err : Option GoError
  conn : Conn
  sub : Subscription V

/-- The function `subJSON(conn, subscription, variables)`. -/
def subJSON {T V : Type} (sv : Services T V) (conn : Conn) (subscription : String) (vars : V) :
    SubJSONResult V :=
  let id := sv.NewV4
  let sub : Subscription V := ⟨id, START, ⟨vars, none, none, subscription⟩⟩
  match Conn.WriteJSON sv conn sub with
  | (some err, conn1) => ⟨none, some err, conn1, sub⟩
  | (none, conn1) => ⟨some .subContext, none, conn1, sub⟩

/-- Everything the two goroutines of a running subscription work on. -/
structure Session (T V : Type) where
  conn : Conn
  newChan : Chan T
  sub : Subscription V
  dialDone : Bool
  subDone : Bool

/-- Calling a cancel function.  For `subContext` the goroutine started in
`subJSON` wakes from `<-ctx.Done()` and runs `sub.Type = STOP`. -/
def CancelFunc.invoke {T V : Type} (h : CancelFunc) (s : Session T V) : Session T V :=
  match h with
  | .dialContext => { s with dialDone := true }
  | .subContext => { s with subDone := true, sub := { s.sub with Type_ := STOP } }

/-- The three results of `Subscribe`, and the session it leaves running. -/
structure SubscribeResult (T V : Type) where
  newChan : Option (Chan T)
  cancel : Option CancelFunc
  err : Option GoError
  session : Option (Session T V)

/-- The method `Client.Subscribe`, up to the start of the receive goroutine. -/
def Client.Subscribe {T V : Type} (c : Client) (sv : Services T V) (m : T) (vars : V) :
    SubscribeResult T V :=
  match newWebsocketConnection sv c.url c.header with
  | .error err => ⟨none, some .dialContext, some err, none⟩
  | .ok conn =>
    let newChan : Chan T := ⟨[], false⟩
    let q := sv.constructSubscription m vars
    let r := subJSON sv conn q vars
    match r.err with
    | some err => ⟨none, r.cancel, some err, none⟩
    | none => ⟨some newChan, r.cancel, none, some ⟨r.conn, newChan, r.sub, false, false⟩⟩

/-- A line written with `log.Println` or `log.Printf` in the receive loop. -/
inductive LogLine where
  | readError (err : GoError)
  | idError (err : GoError)
  | unmarshalError (payloadData : String) (err : GoError)
  | other (id : String) (type : SubscriptionAction) (data : String)
deriving DecidableEq, Repr

/-- State of the receive goroutine between two iterations of its `for`.
`panicked` holds the runtime failure that ended the goroutine, if any. -/
structure LoopState (T : Type) where
  newChan : Chan T
  log : List LogLine
  panicked : Option String

/-- The method `conn.ReadJSON(&msg)` on the outcome of the underlying read. -/
def ReadJSON {T V : Type} (sv : Services T V) (r : ReadResult) :
    Except GoError SubscriptionMessage :=
  match r with
  | .failure err => .error err
  | .message body => sv.unmarshalMessage body

/-- One iteration of the `for` of the receive goroutine, on the outcome `r`
of its read.  Every path ends the iteration and goes back to the head of the
`for`: the two `break` statements leave the `switch` only. -/
def receiveStep {T V : Type} (sv : Services T V) (s : LoopState T) (r : ReadResult) :
    LoopState T :=
  match s.panicked with
  | some _ => s
  | none =>
    match ReadJSON sv r with
    | .error err => { s with log := s.log ++ [.readError err] }
    | .ok msg =>
      if msg.ID = "" then s
      else
        match sv.FromString msg.ID with
        | .error err => { s with log := s.log ++ [.idError err] }
        | .ok id =>
          if msg.Type_ = DATA then
            match sv.UnmarshalGraphQL msg.PayloadData sv.zero with
            | (none, queryData) =>
              match s.newChan.send queryData with
              | .ok ch => { s with newChan := ch }
              | .error p => { s with panicked := some p }
            | (some err, _) =>
              { s with log := s.log ++ [.unmarshalError msg.PayloadData err] }
          else if msg.Type_ = COMPLETE then
            match s.newChan.close with
            | .ok ch => { s with newChan := ch }
            | .error p => { s with panicked := some p }
          else if msg.Type_ = STOP then
            match s.newChan.close with
            | .ok ch => { s with newChan := ch }
            | .error p => { s with panicked := some p }
          else
            { s with log := s.log ++ [.other id msg.Type_ msg.PayloadData] }

/-- The receive goroutine after it has read the given outcomes. -/
def receiveLoop {T V : Type} (sv : Services T V) (s : LoopState T) (reads : List ReadResult) :
    LoopState T :=
  reads.foldl (receiveStep sv) s

/-- The receive goroutine of a session, run over everything the socket still
delivers. -/
def Session.receive {T V : Type} (sv : Services T V) (s : Session T V) : LoopState T :=
  receiveLoop sv ⟨s.newChan, [], none⟩ s.conn.reads

/-! ## The specification's notion of a frame of a given type -/

/-- JSON whitespace: space, tab, line feed, carriage return. -/
def isJSONSpace (ch : Char) : Bool :=
  ch = ' ' ∨ ch = '\t' ∨ ch = '\n' ∨ ch = '\r'

/-- The characters of a text without the JSON whitespace at its two ends. -/
def trimJSONSpace (body : String) : List Char :=
  ((body.toList.dropWhile isJSONSpace).reverse.dropWhile isJSONSpace).reverse

/-- From the specification's words "frame JSON shape `id`, `type`, `payload`"
and "a well-formed frame of type t", in their least demanding reading: the
body is, up to JSON whitespace around it, the JSON object whose one member is
`"type"` with value `t`.  Every JSON reader takes such a body for a frame of
type `t`; bodies with further members or inner whitespace are frames too, so
this is a sufficient condition only. -/
def minimalFrameOfType (t : String) (body : String) : Bool :=
  trimJSONSpace body == ("\x7b\"type\":\"" ++ t ++ "\"\x7d").toList

/-! ### A concrete server for the request executor

The two end-to-end scenarios of the specification, a reply with status 201, and
a reply whose data the decoder refuses. -/

/-- An element of the `Todos` selection. -/
structure Todo where
  ID : String
  Text : String
  Done : Bool
deriving DecidableEq, Repr

/-- A `Todos` query template. -/
structure TodosQuery where
  Todos : List Todo
deriving DecidableEq, Repr

/-- Body of the first scenario. -/
def todosBody : String :=
  "\x7b\"data\":\x7b\"todos\":[\x7b\"id\":\"1\",\"text\":\"a\",\"done\":false\x7d]\x7d,\"errors\":[]\x7d"

/-- The `data` member of the first scenario. -/
def todosData : String :=
  "\x7b\"todos\":[\x7b\"id\":\"1\",\"text\":\"a\",\"done\":false\x7d]\x7d"

/-- Body of the second scenario. -/
def notFoundBody : String :=
  "\x7b\"data\":null,\"errors\":[\x7b\"message\":\"not found\",\"locations\":[\x7b\"line\":1,\"column\":1\x7d]\x7d]\x7d"

/-- Body whose data does not fit the template, sent together with an error. -/
def mismatchBody : String :=
  "\x7b\"data\":\x7b\"todos\":7\x7d,\"errors\":[\x7b\"message\":\"boom\"\x7d]\x7d"

/-- Body with data that fits the template, sent together with an error. -/
def bothBody : String :=
  "\x7b\"data\":\x7b\"todos\":[\x7b\"id\":\"1\",\"text\":\"a\",\"done\":false\x7d]\x7d,\"errors\":[\x7b\"message\":\"slow\"\x7d]\x7d"

/-- The error the demo decoder reports for `mismatchBody`. -/
def mismatchError : GoError := .ext "json: cannot unmarshal number into Go value of type []Todo"

/-- The session identifier the demo generator hands out. -/
def demoID : String := "6ba7b810-9dad-11d1-80b4-00c04fd430c8"

/-- Whether a character is a hexadecimal digit. -/
def isHex (ch : Char) : Bool :=
  ('0' ≤ ch ∧ ch ≤ '9') ∨ ('a' ≤ ch ∧ ch ≤ 'f') ∨ ('A' ≤ ch ∧ ch ≤ 'F')

/-- Whether characters, numbered from `i`, have the canonical layout of a
UUID: hyphens at 8, 13, 18 and 23 and hexadecimal digits elsewhere. -/
def canonicalFrom : Nat → List Char → Bool
  | _, [] => true
  | i, ch :: rest =>
    (if i = 8 ∨ i = 13 ∨ i = 18 ∨ i = 23 then ch = '-' else isHex ch) && canonicalFrom (i + 1) rest

/-- The canonical text form of a UUID, one of the forms `uuid.FromString` reads. -/
def canonicalUUID (t : String) : Bool :=
  t.toList.length = 36 && canonicalFrom 0 t.toList

/-- A `data` frame of the demo session. -/
def dataFrame : String :=
  "\x7b\"id\":\"" ++ demoID ++ "\",\"type\":\"data\",\"payload\":\x7b\"data\":" ++ todosData
    ++ "\x7d\x7d\n"

/-- A `data` frame whose payload does not fit the template. -/
def badDataFrame : String :=
  "\x7b\"id\":\"" ++ demoID ++ "\",\"type\":\"data\",\"payload\":\x7b\"data\":\x7b\"todos\":7\x7d\x7d\x7d\n"

/-- A `complete` frame of the demo session. -/
def completeFrame : String := "\x7b\"id\":\"" ++ demoID ++ "\",\"type\":\"complete\"\x7d\n"

/-- A `stop` frame of the demo session. -/
def stopFrame : String := "\x7b\"id\":\"" ++ demoID ++ "\",\"type\":\"stop\"\x7d\n"

/-- An `error` frame of the demo session. -/
def errorFrame : String := "\x7b\"id\":\"" ++ demoID ++ "\",\"type\":\"error\"\x7d\n"

/-- A `connection_ack` frame as a server writing compact JSON sends it: no
line feed after the closing brace. -/
def bareAck : String := "\x7b\"type\":\"connection_ack\"\x7d"

/-- A `ka` frame without a line feed after the closing brace. -/
def bareKa : String := "\x7b\"type\":\"ka\"\x7d"

/-- A fresh socket delivering the given messages. -/
def demoConn (bodies : List String) : Conn :=
  ⟨bodies.map ReadResult.message, [], [], false⟩

/-- A server and codec answering by endpoint. -/
def demoServices : Services TodosQuery (List (String × String)) where
  constructQuery := fun _ _ => "\x7btodos\x7bid,text,done\x7d\x7d"
  constructMutation := fun _ _ => "mutation\x7btodos\x7bid,text,done\x7d\x7d"
  constructSubscription := fun _ _ => "subscription\x7btodos\x7bid,text,done\x7d\x7d"
  jsonEncode := fun q _ => .ok ("\x7b\"query\":\"" ++ q ++ "\"\x7d\n")
  post := fun url _ =>
    if url = "http://demo/todos" then .ok ⟨200, "200 OK", todosBody⟩
    else if url = "http://demo/missing" then .ok ⟨200, "200 OK", notFoundBody⟩
    else if url = "http://demo/created" then .ok ⟨201, "201 Created", todosBody⟩
    else if url = "http://demo/mismatch" then .ok ⟨200, "200 OK", mismatchBody⟩
    else if url = "http://demo/both" then .ok ⟨200, "200 OK", bothBody⟩
    else .error (.ext "dial tcp: connection refused")
  quote := fun b => "\"" ++ b ++ "\""
  decodeEnvelope := fun body =>
    if body = todosBody then .ok ⟨some todosData, []⟩
    else if body = notFoundBody then .ok ⟨none, [⟨"not found", [⟨1, 1⟩]⟩]⟩
    else if body = mismatchBody then .ok ⟨some "\x7b\"todos\":7\x7d", [⟨"boom", []⟩]⟩
    else if body = bothBody then .ok ⟨some todosData, [⟨"slow", []⟩]⟩
    else .error (.ext "invalid character")
  UnmarshalGraphQL := fun data _ =>
    if data = todosData then (none, ⟨[⟨"1", "a", false⟩]⟩)
    else (some mismatchError, ⟨[]⟩)
  Parse := fun u =>
    if u = "http://demo/sub" then .ok ⟨"http", "", none, "demo", "/sub", "", false, "", ""⟩
    else if u = "https://demo/sub" then .ok ⟨"https", "", none, "demo", "/sub", "", false, "", ""⟩
    else if u = "http://demo/twice" then .ok ⟨"http", "", none, "demo", "/twice", "", false, "", ""⟩
    else if u = "http://demo/late" then .ok ⟨"http", "", none, "demo", "/late", "", false, "", ""⟩
    else if u = "http://demo/bare" then .ok ⟨"http", "", none, "demo", "/bare", "", false, "", ""⟩
    else .error (.ext "parse: invalid URL")
  URLString := fun u => u.Scheme ++ "://" ++ u.Host ++ u.Path
  DialContext := fun u _ _ =>
    if u = "ws://demo/sub" then .ok (demoConn [ackText, kaText, dataFrame, badDataFrame, completeFrame])
    else if u = "wss://demo/sub" then .ok (demoConn [ackText, kaText, dataFrame, completeFrame])
    else if u = "ws://demo/twice" then .ok (demoConn [ackText, kaText, completeFrame, stopFrame])
    else if u = "ws://demo/late" then .ok (demoConn [ackText, kaText, completeFrame, dataFrame])
    else if u = "ws://demo/bare" then .ok (demoConn [bareAck, bareKa])
    else .error (.ext "dial tcp: connection refused")
  NewV4 := demoID
  FromString := fun t => if canonicalUUID t then .ok t else .error (.ext "uuid: incorrect UUID format")
  marshalSubscription := fun sub =>
    .ok ("\x7b\"id\":\"" ++ sub.ID ++ "\",\"type\":\"" ++ sub.Type_
      ++ "\",\"payload\":\x7b\"query\":\"" ++ sub.Payload.Query ++ "\"\x7d\x7d\n")
  unmarshalMessage := fun body =>
    if body = dataFrame then .ok ⟨demoID, "data", todosData, ""⟩
    else if body = badDataFrame then .ok ⟨demoID, "data", "\x7b\"todos\":7\x7d", ""⟩
    else if body = completeFrame then .ok ⟨demoID, "complete", "", ""⟩
    else if body = stopFrame then .ok ⟨demoID, "stop", "", ""⟩
    else if body = errorFrame then .ok ⟨demoID, "error", "", ""⟩
    else if body = kaText then .ok ⟨"", "ka", "", ""⟩
    else .error (.ext "invalid character")
  zero := ⟨[]⟩

/-- Client for a demo endpoint. -/
def demoClient (path : String) : Client := ⟨"http://demo/" ++ path, []⟩

/-! # Theorems -/

/-! ## Request executor -/

/-- The method `Query` is `do` with `queryOperation`. -/
theorem Query_eq_do {T V : Type} (c : Client) (sv : Services T V) (q : T) (vars : V) :
    c.Query sv q vars = c.do_ sv .queryOperation q vars := rfl

/-- The method `Mutate` is `do` with `mutationOperation`. -/
theorem Mutate_eq_do {T V : Type} (c : Client) (sv : Services T V) (m : T) (vars : V) :
    c.Mutate sv m vars = c.do_ sv .mutationOperation m vars := rfl

/-- On a reply with status 200 whose body decodes, `do` is decided by the
envelope alone. -/
theorem do_of_envelope {T V : Type} (c : Client) (sv : Services T V) (op : operationType)
    (v : T) (vars : V) (buf : String) (resp : Response) (out : Envelope)
    (henc : sv.jsonEncode (operationDocument sv op v vars) vars = .ok buf)
    (hpost : sv.post c.url buf = .ok resp)
    (hstatus : resp.StatusCode = 200)
    (henv : sv.decodeEnvelope resp.Body = .ok out) :
    c.do_ sv op v vars =
      match out.Data with
      | some data =>
        match sv.UnmarshalGraphQL data v with
        | (some err, v1) =>
          ⟨some err, v1, [.encode, .post, .decodeEnvelope, .unmarshal data]⟩
        | (none, v1) =>
          if out.Errors.length > 0 then
            ⟨some (.errs out.Errors), v1, [.encode, .post, .decodeEnvelope, .unmarshal data]⟩
          else
            ⟨none, v1, [.encode, .post, .decodeEnvelope, .unmarshal data]⟩
      | none =>
        if out.Errors.length > 0 then
          ⟨some (.errs out.Errors), v, [.encode, .post, .decodeEnvelope]⟩
        else
          ⟨none, v, [.encode, .post, .decodeEnvelope]⟩ := by
  simp only [Client.do_, henc, hpost, hstatus, henv, StatusOK, ne_eq, not_true_eq_false,
    if_false]

/-- The message of a non-empty `errors` value is the message of its first entry. -/
theorem errors_Error_of_ne_nil (e : errors) (hne : e ≠ []) :
    errors.Error e = some (e.head hne).Message := by
  cases e with
  | nil => exact absurd rfl hne
  | cons e0 rest => rfl

/-- A non-empty list has positive length, the test `len(out.Errors) > 0`. -/
theorem errors_length_pos (e : errors) (hne : e ≠ []) : e.length > 0 :=
  List.length_pos.mpr hne

/-- C1: on a 200 reply whose envelope carries a non-empty errors array and
whose data is nil or accepted by the decoder, `do` (hence `Query` and `Mutate`)
returns the whole errors list as its error, and the message of that error is
defined and is the message of the first entry. -/
theorem do_returns_errors_list {T V : Type} (c : Client) (sv : Services T V)
    (op : operationType) (v : T) (vars : V) (buf : String) (resp : Response) (out : Envelope)
    (henc : sv.jsonEncode (operationDocument sv op v vars) vars = .ok buf)
    (hpost : sv.post c.url buf = .ok resp)
    (hstatus : resp.StatusCode = 200)
    (henv : sv.decodeEnvelope resp.Body = .ok out)
    (hne : out.Errors ≠ [])
    (hdata : out.Data = none ∨
      ∃ d, out.Data = some d ∧ (sv.UnmarshalGraphQL d v).1 = none) :
    (c.do_ sv op v vars).err = some (.errs out.Errors) ∧
    (c.do_ sv op v vars).err.bind GoError.Error = some (out.Errors.head hne).Message := by
  have hlen := errors_length_pos out.Errors hne
  have herr : (c.do_ sv op v vars).err = some (.errs out.Errors) := by
    rw [do_of_envelope c sv op v vars buf resp out henc hpost hstatus henv]
    rcases hdata with hnil | ⟨d, hd, hacc⟩
    · simp only [hnil, hlen, if_true]
    · rcases hu : sv.UnmarshalGraphQL d v with ⟨e, v1⟩
      rw [hu] at hacc
      simp only at hacc
      subst hacc
      simp only [hd, hu, hlen, if_true]
  refine ⟨herr, ?_⟩
  rw [herr]
  exact errors_Error_of_ne_nil out.Errors hne

/-- Instance at the reply `bothBody` (data accepted, one error reported), for `Query`. -/
theorem do_returns_errors_list_witness :
    ((demoClient "both").Query demoServices ⟨[]⟩ []).err = some (.errs [⟨"slow", []⟩]) ∧
    ((demoClient "both").Query demoServices ⟨[]⟩ []).err.bind GoError.Error = some "slow" :=
  do_returns_errors_list (demoClient "both") demoServices .queryOperation ⟨[]⟩ [] _
    ⟨200, "200 OK", bothBody⟩ ⟨some todosData, [⟨"slow", []⟩]⟩ rfl (by rfl) rfl (by rfl)
    (by decide) (Or.inr ⟨todosData, rfl, by decide⟩)

/-- The document text does not depend on the two decoders. -/
theorem operationDocument_decoders {T V : Type} (sv : Services T V) (op : operationType)
    (v : T) (vars : V) (g : String → Except GoError Envelope)
    (f : String → T → Option GoError × T) :
    operationDocument { sv with decodeEnvelope := g, UnmarshalGraphQL := f } op v vars
      = operationDocument sv op v vars := by
  cases op <;> rfl

/-- The value of `do` on a reply whose status code is not 200. -/
theorem do_of_status_not_ok {T V : Type} (c : Client) (sv : Services T V)
    (op : operationType) (v : T) (vars : V) (buf : String) (resp : Response)
    (henc : sv.jsonEncode (operationDocument sv op v vars) vars = .ok buf)
    (hpost : sv.post c.url buf = .ok resp)
    (hstatus : resp.StatusCode ≠ 200) :
    c.do_ sv op v vars =
      ⟨some (.errorf (statusErrorText sv.quote resp)), v, [.encode, .post, .readAll]⟩ := by
  simp only [Client.do_, henc, hpost, StatusOK, ne_eq, hstatus, not_false_eq_true, if_true]

/-- C2: whenever the reply's status code differs from 200 (201 and 204
included), whatever the body, `do` (hence `Query` and `Mutate`) returns the
`fmt.Errorf` error whose text is made of the status line and the quoted body;
the template is returned as passed; neither the envelope decoder nor the
GraphQL decoder is called, and the outcome is the same whatever those two
decoders would do. -/
theorem do_status_not_ok {T V : Type} (c : Client) (sv : Services T V)
    (op : operationType) (v : T) (vars : V) (buf : String) (resp : Response)
    (henc : sv.jsonEncode (operationDocument sv op v vars) vars = .ok buf)
    (hpost : sv.post c.url buf = .ok resp)
    (hstatus : resp.StatusCode ≠ 200) :
    (c.do_ sv op v vars).err =
      some (.errorf ("non-200 OK status code: " ++ resp.Status ++ " body: "
        ++ sv.quote resp.Body)) ∧
    (c.do_ sv op v vars).v = v ∧
    Call.decodeEnvelope ∉ (c.do_ sv op v vars).calls ∧
    (∀ d, Call.unmarshal d ∉ (c.do_ sv op v vars).calls) ∧
    ∀ (g : String → Except GoError Envelope) (f : String → T → Option GoError × T),
      c.do_ { sv with decodeEnvelope := g, UnmarshalGraphQL := f } op v vars
        = c.do_ sv op v vars := by
  have hrun := do_of_status_not_ok c sv op v vars buf resp henc hpost hstatus
  refine ⟨?_, ?_, ?_, ?_, ?_⟩
  · rw [hrun]; rfl
  · rw [hrun]
  · rw [hrun]
    intro hd
    simp at hd
  · rw [hrun]
    intro d hd
    simp at hd
  · intro g f
    rw [hrun]
    refine do_of_status_not_ok c { sv with decodeEnvelope := g, UnmarshalGraphQL := f }
      op v vars buf resp ?_ hpost hstatus
    rw [operationDocument_decoders]
    exact henc

/-- Instance at a reply with status 201 and a body that would decode, for `Mutate`. -/
theorem do_status_not_ok_witness :
    ((demoClient "created").Mutate demoServices ⟨[]⟩ []).err =
      some (.errorf ("non-200 OK status code: " ++ "201 Created" ++ " body: "
        ++ demoServices.quote todosBody)) ∧
    ((demoClient "created").Mutate demoServices ⟨[]⟩ []).v = ⟨[]⟩ ∧
    Call.decodeEnvelope ∉ ((demoClient "created").Mutate demoServices ⟨[]⟩ []).calls ∧
    ∀ d, Call.unmarshal d ∉ ((demoClient "created").Mutate demoServices ⟨[]⟩ []).calls :=
  have h := do_status_not_ok (demoClient "created") demoServices .mutationOperation ⟨[]⟩ [] _
    ⟨201, "201 Created", todosBody⟩ rfl (by rfl) (by decide)
  ⟨h.1, h.2.1, h.2.2.1, h.2.2.2.1⟩

/-- C3: on a 200 reply whose envelope has data the decoder accepts and no
errors, `do` (hence `Query` and `Mutate`) returns nil and the template is what
the decoder made of the template passed in. -/
theorem do_success {T V : Type} (c : Client) (sv : Services T V)
    (op : operationType) (v : T) (vars : V) (buf : String) (resp : Response) (out : Envelope)
    (d : String)
    (henc : sv.jsonEncode (operationDocument sv op v vars) vars = .ok buf)
    (hpost : sv.post c.url buf = .ok resp)
    (hstatus : resp.StatusCode = 200)
    (henv : sv.decodeEnvelope resp.Body = .ok out)
    (hdata : out.Data = some d)
    (hacc : (sv.UnmarshalGraphQL d v).1 = none)
    (hnone : out.Errors = []) :
    (c.do_ sv op v vars).err = none ∧
    (c.do_ sv op v vars).v = (sv.UnmarshalGraphQL d v).2 := by
  rw [do_of_envelope c sv op v vars buf resp out henc hpost hstatus henv]
  rcases hu : sv.UnmarshalGraphQL d v with ⟨e, v1⟩
  rw [hu] at hacc
  simp only at hacc
  subst hacc
  simp [hdata, hu, hnone]

/-- Instance at the first end-to-end scenario, for `Query`: the `Todos` field
of the template becomes the one decoded entry and the error is nil. -/
theorem do_success_witness :
    ((demoClient "todos").Query demoServices ⟨[]⟩ []).err = none ∧
    ((demoClient "todos").Query demoServices ⟨[]⟩ []).v = ⟨[⟨"1", "a", false⟩]⟩ :=
  do_success (demoClient "todos") demoServices .queryOperation ⟨[]⟩ [] _
    ⟨200, "200 OK", todosBody⟩ ⟨some todosData, []⟩ todosData rfl (by rfl) rfl (by rfl)
    rfl (by rfl) rfl

/-- C4: on a 200 reply whose envelope has data the decoder rejects, `do`
(hence `Query` and `Mutate`) returns the decoder's error itself, whatever the
errors array holds. -/
theorem do_decode_error_first {T V : Type} (c : Client) (sv : Services T V)
    (op : operationType) (v : T) (vars : V) (buf : String) (resp : Response) (out : Envelope)
    (d : String) (e : GoError)
    (henc : sv.jsonEncode (operationDocument sv op v vars) vars = .ok buf)
    (hpost : sv.post c.url buf = .ok resp)
    (hstatus : resp.StatusCode = 200)
    (henv : sv.decodeEnvelope resp.Body = .ok out)
    (hdata : out.Data = some d)
    (hrej : (sv.UnmarshalGraphQL d v).1 = some e) :
    (c.do_ sv op v vars).err = some e := by
  rw [do_of_envelope c sv op v vars buf resp out henc hpost hstatus henv]
  rcases hu : sv.UnmarshalGraphQL d v with ⟨e1, v1⟩
  rw [hu] at hrej
  simp only at hrej
  subst hrej
  simp [hdata, hu]

/-- Instance at a reply with ill-shaped data and a server error `boom`, for
`Query`: the decoder's error is returned, not `boom`. -/
theorem do_decode_error_first_witness :
    ((demoClient "mismatch").Query demoServices ⟨[]⟩ []).err = some mismatchError :=
  do_decode_error_first (demoClient "mismatch") demoServices .queryOperation ⟨[]⟩ [] _
    ⟨200, "200 OK", mismatchBody⟩ ⟨some "\x7b\"todos\":7\x7d", [⟨"boom", []⟩]⟩ _ mismatchError
    rfl (by rfl) rfl (by rfl) rfl (by rfl)

/-- C5: on a 200 reply whose envelope has nil data (absent or JSON null), the
decoder is not called, the outcome is the same whatever the decoder would do,
and the template is returned as passed; when the errors array is non-empty the
call fails with the errors list, whose message is that of its first entry. -/
theorem do_nil_data {T V : Type} (c : Client) (sv : Services T V)
    (op : operationType) (v : T) (vars : V) (buf : String) (resp : Response) (out : Envelope)
    (henc : sv.jsonEncode (operationDocument sv op v vars) vars = .ok buf)
    (hpost : sv.post c.url buf = .ok resp)
    (hstatus : resp.StatusCode = 200)
    (henv : sv.decodeEnvelope resp.Body = .ok out)
    (hdata : out.Data = none) :
    (∀ d, Call.unmarshal d ∉ (c.do_ sv op v vars).calls) ∧
    (∀ f : String → T → Option GoError × T,
      c.do_ { sv with UnmarshalGraphQL := f } op v vars = c.do_ sv op v vars) ∧
    (c.do_ sv op v vars).v = v ∧
    (out.Errors = [] → (c.do_ sv op v vars).err = none) ∧
    ∀ hne : out.Errors ≠ [],
      (c.do_ sv op v vars).err = some (.errs out.Errors) ∧
      (c.do_ sv op v vars).err.bind GoError.Error = some (out.Errors.head hne).Message := by
  have hrun := do_of_envelope c sv op v vars buf resp out henc hpost hstatus henv
  simp only [hdata] at hrun
  refine ⟨?_, ?_, ?_, ?_, ?_⟩
  · rw [hrun]
    intro d hd
    split at hd <;> simp at hd
  · intro f
    have hdoc : operationDocument { sv with UnmarshalGraphQL := f } op v vars
        = operationDocument sv op v vars := by cases op <;> rfl
    have hrun2 := do_of_envelope c { sv with UnmarshalGraphQL := f } op v vars buf resp out
      (by rw [hdoc]; exact henc) hpost hstatus henv
    simp only [hdata] at hrun2
    rw [hrun, hrun2]
  · rw [hrun]
    split <;> rfl
  · intro hnil
    rw [hrun]
    simp [hnil]
  · intro hne
    have hlen := errors_length_pos out.Errors hne
    rw [hrun]
    simp only [hlen, if_true, Option.some_bind, GoError.Error, true_and]
    exact errors_Error_of_ne_nil out.Errors hne

/-- Instance at the second end-to-end scenario, for `Query`: null data and the
error `not found`; the template keeps the entry it held. -/
theorem do_nil_data_witness :
    (∀ d, Call.unmarshal d ∉ ((demoClient "missing").Query demoServices ⟨[⟨"0", "kept", true⟩]⟩ []).calls) ∧
    ((demoClient "missing").Query demoServices ⟨[⟨"0", "kept", true⟩]⟩ []).v
      = ⟨[⟨"0", "kept", true⟩]⟩ ∧
    ((demoClient "missing").Query demoServices ⟨[⟨"0", "kept", true⟩]⟩ []).err.bind GoError.Error
      = some "not found" :=
  have h := do_nil_data (demoClient "missing") demoServices .queryOperation
    ⟨[⟨"0", "kept", true⟩]⟩ [] _ ⟨200, "200 OK", notFoundBody⟩
    ⟨none, [⟨"not found", [⟨1, 1⟩]⟩]⟩ rfl (by rfl) rfl (by rfl) rfl
  ⟨h.1, h.2.2.1, (h.2.2.2.2 (by decide)).2⟩

/-! ## Connection set-up -/

/-- A write leaves the pending reads as they are. -/
theorem WriteMessage_reads (conn : Conn) (data : String) :
    (conn.WriteMessage data).2.reads = conn.reads := by
  unfold Conn.WriteMessage
  split <;> rfl

/-- When the first write goes through, the handshake succeeds exactly when the
next two reads deliver `ackText` and `kaText`. -/
theorem handshake_ok_iff (conn : Conn) (hwrite : (conn.WriteMessage initText).1 = none) :
    (∃ conn1, handshake conn = .ok conn1) ↔
      ∃ rest, conn.reads = .message ackText :: .message kaText :: rest := by
  have hreads := WriteMessage_reads conn initText
  unfold handshake
  rcases hw : conn.WriteMessage initText with ⟨e, c1⟩
  rw [hw] at hwrite hreads
  simp only at hwrite hreads
  subst hwrite
  simp only
  rw [← hreads]
  unfold Conn.ReadMessage
  rcases c1.reads with _ | ⟨r1, rest1⟩
  · simp
  · cases r1 with
    | failure err => simp
    | message body =>
      by_cases hb : body = ackText
      · subst hb
        rcases rest1 with _ | ⟨r2, rest2⟩
        · simp
        · cases r2 with
          | failure err => simp
          | message body2 =>
            by_cases hb2 : body2 = kaText
            · subst hb2
              simp
            · simp [hb2]
      · simp [hb]

/-- Whenever `newWebsocketConnection` fails, `Subscribe` returns its error and
no output stream. -/
theorem Subscribe_of_connection_error {T V : Type} (c : Client) (sv : Services T V)
    (m : T) (vars : V) (err : GoError)
    (h : newWebsocketConnection sv c.url c.header = .error err) :
    (c.Subscribe sv m vars).newChan = none ∧ (c.Subscribe sv m vars).err = some err := by
  simp [Client.Subscribe, h]

/-- Two bodies that are frames of type `connection_ack` and `ka`, sent in that
order without a line feed after the closing brace, make the handshake fail:
the first body is compared with `ackText` and differs from it. -/
theorem handshake_rejects_compact_frames :
    minimalFrameOfType "connection_ack" bareAck = true ∧
    minimalFrameOfType "ka" bareKa = true ∧
    handshake (demoConn [bareAck, bareKa])
      = .error (.errorf ("Did not receive ack, got: " ++ bareAck ++ "'")) ∧
    ¬ (∃ conn1, newWebsocketConnection demoServices (demoClient "bare").url [] = .ok conn1) ∧
    ((demoClient "bare").Subscribe demoServices ⟨[]⟩ []).newChan.isNone = true := by
  refine ⟨by rfl, by rfl, by rfl, ?_, by rfl⟩
  rintro ⟨conn1, h⟩
  have h2 : newWebsocketConnection demoServices (demoClient "bare").url []
      = .error (.errorf ("Did not receive ack, got: " ++ bareAck ++ "'")) := by rfl
  rw [h2] at h
  cases h

/-- C6 as amended: once the endpoint is parsed, dialled and `connection_init`
is written, `newWebsocketConnection` succeeds if and only if the first message
read is byte for byte `ackText` and the second byte for byte `kaText`; in every
other case `Subscribe` returns a non-nil error and a nil output stream. -/
theorem handshake_iff_exact_bytes {T V : Type} (c : Client) (sv : Services T V)
    (m : T) (vars : V) (p : URL) (conn : Conn)
    (hparse : sv.Parse c.url = .ok p)
    (hdial : sv.DialContext (sv.URLString (upgradeScheme p)) ["graphql-ws"] c.header = .ok conn)
    (hwrite : (conn.WriteMessage initText).1 = none) :
    ((∃ conn1, newWebsocketConnection sv c.url c.header = .ok conn1) ↔
      ∃ rest, conn.reads = .message ackText :: .message kaText :: rest) ∧
    ((¬ ∃ rest, conn.reads = .message ackText :: .message kaText :: rest) →
      (c.Subscribe sv m vars).newChan = none ∧ (c.Subscribe sv m vars).err ≠ none) := by
  have hconn : newWebsocketConnection sv c.url c.header = handshake conn := by
    simp only [newWebsocketConnection, hparse, hdial]
  have hiff := handshake_ok_iff conn hwrite
  rw [← hconn] at hiff
  refine ⟨hiff, ?_⟩
  intro hno
  rcases hres : newWebsocketConnection sv c.url c.header with err | conn1
  · have := Subscribe_of_connection_error c sv m vars err hres
    simp [this.1, this.2]
  · exact absurd (hiff.mp ⟨conn1, hres⟩) hno

/-- Instance at the demo endpoint `sub`, whose server answers with the two
expected byte sequences. -/
theorem handshake_iff_exact_bytes_witness :
    ((∃ conn1, newWebsocketConnection demoServices (demoClient "sub").url [] = .ok conn1) ↔
      ∃ rest, (demoConn [ackText, kaText, dataFrame, badDataFrame, completeFrame]).reads
        = .message ackText :: .message kaText :: rest) ∧
    ((¬ ∃ rest, (demoConn [ackText, kaText, dataFrame, badDataFrame, completeFrame]).reads
        = .message ackText :: .message kaText :: rest) →
      ((demoClient "sub").Subscribe demoServices ⟨[]⟩ []).newChan = none ∧
      ((demoClient "sub").Subscribe demoServices ⟨[]⟩ []).err ≠ none) :=
  handshake_iff_exact_bytes (demoClient "sub") demoServices ⟨[]⟩ []
    ⟨"http", "", none, "demo", "/sub", "", false, "", ""⟩
    (demoConn [ackText, kaText, dataFrame, badDataFrame, completeFrame])
    (by rfl) (by rfl) (by rfl)

/-- C10: for an endpoint that parses, `newWebsocketConnection` hands the dialler
the text of the parsed URL with its scheme replaced, `wss` for `https` and
`wss`, `ws` for every other scheme, and all other components as parsed; the
scheme dialled is `ws` or `wss`, and replacing twice is replacing once. -/
theorem newWebsocketConnection_dials_upgraded {T V : Type} (sv : Services T V) (u : String)
    (header : Header) (p : URL) (hparse : sv.Parse u = .ok p) :
    newWebsocketConnection sv u header =
      (match sv.DialContext (sv.URLString (upgradeScheme p)) ["graphql-ws"] header with
        | .error err => .error err
        | .ok conn => handshake conn) ∧
    (upgradeScheme p).Scheme
      = (if p.Scheme = "https" ∨ p.Scheme = "wss" then "wss" else "ws") ∧
    ((upgradeScheme p).Opaque = p.Opaque ∧ (upgradeScheme p).User = p.User ∧
      (upgradeScheme p).Host = p.Host ∧ (upgradeScheme p).Path = p.Path ∧
      (upgradeScheme p).RawPath = p.RawPath ∧ (upgradeScheme p).ForceQuery = p.ForceQuery ∧
      (upgradeScheme p).RawQuery = p.RawQuery ∧ (upgradeScheme p).Fragment = p.Fragment) ∧
    ((upgradeScheme p).Scheme = "ws" ∨ (upgradeScheme p).Scheme = "wss") ∧
    upgradeScheme (upgradeScheme p) = upgradeScheme p := by
  refine ⟨?_, ?_, ?_, ?_, ?_⟩
  · simp only [newWebsocketConnection, hparse]
  · unfold upgradeScheme
    split <;> rfl
  · unfold upgradeScheme
    split <;> simp
  · unfold upgradeScheme
    split <;> simp
  · unfold upgradeScheme
    split <;> simp

/-- Instance at the endpoint `https://demo/sub`, dialled as `wss://demo/sub`. -/
theorem newWebsocketConnection_dials_upgraded_witness :
    demoServices.URLString
        (upgradeScheme ⟨"https", "", none, "demo", "/sub", "", false, "", ""⟩)
      = "wss://demo/sub" ∧
    (upgradeScheme ⟨"https", "", none, "demo", "/sub", "", false, "", ""⟩).Scheme
      = (if "https" = "https" ∨ "https" = "wss" then "wss" else "ws") :=
  ⟨by rfl, (newWebsocketConnection_dials_upgraded demoServices "https://demo/sub" []
    ⟨"https", "", none, "demo", "/sub", "", false, "", ""⟩ (by rfl)).2.1⟩

/-! ## Receive loop -/

/-- The loop over a list of reads followed by one more read. -/
theorem receiveLoop_append {T V : Type} (sv : Services T V) (s : LoopState T)
    (reads : List ReadResult) (r : ReadResult) :
    receiveLoop sv s (reads ++ [r]) = receiveStep sv (receiveLoop sv s reads) r := by
  simp [receiveLoop, List.foldl_append]

/-- C8: in the receive loop, for every `data` frame with a valid identifier
read while the stream is open: when the decoder accepts `payload.data`, exactly
one value is added to the stream, and it is the decoder's result on a new zero
value of the template type; when the decoder rejects `payload.data`, nothing is
sent, the stream stays open and the loop goes on to the next read. -/
theorem receiveStep_data_open {T V : Type} (sv : Services T V) (s : LoopState T)
    (body : String) (msg : SubscriptionMessage) (id : String)
    (hrun : s.panicked = none) (hopen : s.newChan.closed = false)
    (hmsg : sv.unmarshalMessage body = .ok msg)
    (hid : msg.ID ≠ "") (huuid : sv.FromString msg.ID = .ok id)
    (htype : msg.Type_ = DATA) :
    ((sv.UnmarshalGraphQL msg.PayloadData sv.zero).1 = none →
      (receiveStep sv s (.message body)).newChan.sent
          = s.newChan.sent ++ [(sv.UnmarshalGraphQL msg.PayloadData sv.zero).2] ∧
      (receiveStep sv s (.message body)).newChan.closed = false ∧
      (receiveStep sv s (.message body)).panicked = none) ∧
    (∀ err, (sv.UnmarshalGraphQL msg.PayloadData sv.zero).1 = some err →
      (receiveStep sv s (.message body)).newChan.sent = s.newChan.sent ∧
      (receiveStep sv s (.message body)).newChan.closed = false ∧
      (receiveStep sv s (.message body)).panicked = none) := by
  rcases hu : sv.UnmarshalGraphQL msg.PayloadData sv.zero with ⟨e, q⟩
  constructor
  · intro he
    simp only at he
    subst he
    simp [receiveStep, hrun, ReadJSON, hmsg, hid, huuid, htype, hu, Chan.send, hopen]
  · intro err he
    simp only at he
    subst he
    simp [receiveStep, hrun, ReadJSON, hmsg, hid, huuid, htype, hu, hopen]

/-- Instance on the open, empty stream of the demo session: the `data` frame
with a fitting payload publishes the one decoded value, and the `data` frame
with an ill-shaped payload publishes nothing and leaves the stream open. -/
theorem receiveStep_data_open_witness :
    ((receiveStep demoServices (⟨⟨[], false⟩, [], none⟩ : LoopState TodosQuery)
        (.message dataFrame)).newChan.sent = [⟨[⟨"1", "a", false⟩]⟩] ∧
      (receiveStep demoServices (⟨⟨[], false⟩, [], none⟩ : LoopState TodosQuery)
        (.message dataFrame)).newChan.closed = false ∧
      (receiveStep demoServices (⟨⟨[], false⟩, [], none⟩ : LoopState TodosQuery)
        (.message dataFrame)).panicked = none) ∧
    ((receiveStep demoServices (⟨⟨[], false⟩, [], none⟩ : LoopState TodosQuery)
        (.message badDataFrame)).newChan.sent = [] ∧
      (receiveStep demoServices (⟨⟨[], false⟩, [], none⟩ : LoopState TodosQuery)
        (.message badDataFrame)).newChan.closed = false ∧
      (receiveStep demoServices (⟨⟨[], false⟩, [], none⟩ : LoopState TodosQuery)
        (.message badDataFrame)).panicked = none) :=
  ⟨(receiveStep_data_open demoServices ⟨⟨[], false⟩, [], none⟩ dataFrame
      ⟨demoID, "data", todosData, ""⟩ demoID rfl rfl (by rfl) (by decide) (by rfl) rfl).1
      (by rfl),
    (receiveStep_data_open demoServices ⟨⟨[], false⟩, [], none⟩ badDataFrame
      ⟨demoID, "data", "\x7b\"todos\":7\x7d", ""⟩ demoID rfl rfl (by rfl) (by decide) (by rfl)
      rfl).2 mismatchError (by rfl)⟩

/-- A `complete` or `stop` frame with a valid identifier, read while the loop
runs: the loop is still running afterwards when the stream was open, and has
failed with a second close when the stream was closed already. -/
theorem receiveStep_close {T V : Type} (sv : Services T V) (s : LoopState T)
    (body : String) (msg : SubscriptionMessage) (id : String)
    (hrun : s.panicked = none)
    (hmsg : sv.unmarshalMessage body = .ok msg)
    (hid : msg.ID ≠ "") (huuid : sv.FromString msg.ID = .ok id)
    (htype : msg.Type_ = COMPLETE ∨ msg.Type_ = STOP) :
    (s.newChan.closed = false →
      (receiveStep sv s (.message body)).newChan.closed = true ∧
      (receiveStep sv s (.message body)).panicked = none) ∧
    (s.newChan.closed = true →
      (receiveStep sv s (.message body)).panicked = some "close of closed channel") := by
  have hcd : COMPLETE ≠ DATA := by decide
  have hsd : STOP ≠ DATA := by decide
  have hsc : STOP ≠ COMPLETE := by decide
  constructor
  · intro hopen
    rcases htype with h | h <;>
      simp [receiveStep, hrun, ReadJSON, hmsg, hid, huuid, hcd, hsd, hsc, h, Chan.close, hopen]
  · intro hclosed
    rcases htype with h | h <;>
      simp [receiveStep, hrun, ReadJSON, hmsg, hid, huuid, hcd, hsd, hsc, h, Chan.close, hclosed]

/-- C7, the code at a `complete` frame followed by a `stop` frame: after the
first frame the stream is closed and the loop still runs; it reads the second
frame, closes the stream again and fails there.  A frame of another type read
after `complete` is handled as well: it is logged. -/
theorem receive_complete_then_stop :
    (((demoClient "twice").Subscribe demoServices ⟨[]⟩ []).session.map
        (fun s => s.conn.reads)) = some [.message completeFrame, .message stopFrame] ∧
    (receiveLoop demoServices (⟨⟨[], false⟩, [], none⟩ : LoopState TodosQuery)
        [.message completeFrame]).newChan.closed = true ∧
    (receiveLoop demoServices (⟨⟨[], false⟩, [], none⟩ : LoopState TodosQuery)
        [.message completeFrame]).panicked = none ∧
    (((demoClient "twice").Subscribe demoServices ⟨[]⟩ []).session.map
        (fun s => (s.receive demoServices).panicked))
      = some (some "close of closed channel") ∧
    (receiveLoop demoServices (⟨⟨[], false⟩, [], none⟩ : LoopState TodosQuery)
        [.message completeFrame, .message errorFrame]).log
      = [.other demoID "error" ""] := by
  refine ⟨by rfl, by rfl, by rfl, by rfl, by rfl⟩

/-- The loop that has not ended at `complete`, at a `data` frame that follows:
the frame is read, the send on the closed stream fails, and nothing has been
published. -/
theorem receive_data_after_complete :
    (((demoClient "late").Subscribe demoServices ⟨[]⟩ []).session.map
        (fun s => s.conn.reads)) = some [.message completeFrame, .message dataFrame] ∧
    (demoServices.UnmarshalGraphQL todosData demoServices.zero).1 = none ∧
    (((demoClient "late").Subscribe demoServices ⟨[]⟩ []).session.map
        (fun s => (s.receive demoServices).panicked))
      = some (some "send on closed channel") ∧
    (((demoClient "late").Subscribe demoServices ⟨[]⟩ []).session.map
        (fun s => (s.receive demoServices).newChan.sent)) = some [] := by
  refine ⟨by rfl, by rfl, by rfl, by rfl⟩

/-! ## Cancellation -/

/-- Calling either cancel function leaves the socket as it is: nothing is
written and the socket is not closed. -/
theorem invoke_conn {T V : Type} (h : CancelFunc) (s : Session T V) :
    (h.invoke s).conn = s.conn := by
  cases h <;> rfl

/-- C9, the code at a successful `Subscribe` followed by a call of the cancel
function it returned: that function is the one made in `subJSON`; after the
call the frames written are still `connection_init` and the `start` frame, the
last frame written is not a `stop` frame, and the socket is not closed.  Only
the local `sub` has its type set to `stop`. -/
theorem cancel_sends_nothing :
    ((demoClient "sub").Subscribe demoServices ⟨[]⟩ []).err = none ∧
    ((demoClient "sub").Subscribe demoServices ⟨[]⟩ []).cancel = some .subContext ∧
    (((demoClient "sub").Subscribe demoServices ⟨[]⟩ []).session.map
        (fun s => (CancelFunc.subContext.invoke s).conn.written))
      = some [initText,
          "\x7b\"id\":\"6ba7b810-9dad-11d1-80b4-00c04fd430c8\",\"type\":\"start\",\"payload\":\x7b\"query\":\"subscription\x7btodos\x7bid,text,done\x7d\x7d\"\x7d\x7d\n"] ∧
    (((demoClient "sub").Subscribe demoServices ⟨[]⟩ []).session.map
        (fun s => (CancelFunc.subContext.invoke s).conn.closed)) = some false ∧
    (((demoClient "sub").Subscribe demoServices ⟨[]⟩ []).session.map
        (fun s => (CancelFunc.subContext.invoke s).sub.Type_)) = some STOP := by
  refine ⟨by rfl, by rfl, by rfl, by rfl, by rfl⟩

end graphql
